import Mathlib

/-!
Verification of the `bsu_dates` package (`src/__init__.py`), a generator of
Ball State University academic-calendar dates.

Dates are embedded as proleptic-Gregorian day ordinals (`Nat`), exactly the
value returned by Python's `datetime.date.toordinal` (January 1 of year 1 is
ordinal 1).  Offset arithmetic on `datetime.date`/`datetime.timedelta` becomes
ordinary `Nat` addition and subtraction of day counts.  The `dateutil.rrule`
recurrences used by the source (YEARLY frequency with `bymonth` and either
`byweekday = WD(n)` or `bymonthday`) produce exactly one occurrence per
calendar year — the nth (or nth-from-last) given weekday of the given month,
or the fixed month day — and the iterator yields, in order, those yearly
occurrences that fall on or after `dtstart`.  That semantics is embedded by
`occInYear` / `genNth` below.
-/

namespace BSU

/-- Gregorian leap-year test, as in Python's `calendar.isleap` /
`datetime._is_leap`. -/
def isLeap (y : Nat) : Bool :=
  (y % 4 == 0 && y % 100 != 0) || y % 400 == 0

/-- Number of days in month `m` of year `y` (months are 1-based), as in
Python's `datetime._days_in_month`. -/
def daysInMonth (y m : Nat) : Nat :=
  if m = 2 then (if isLeap y then 29 else 28)
  else if m = 4 ∨ m = 6 ∨ m = 9 ∨ m = 11 then 30
  else 31

/-- Number of days in year `y` before month `m`, as in Python's
`datetime._days_before_month`. -/
def daysBeforeMonth (y m : Nat) : Nat :=
  (List.range (m - 1)).foldl (fun acc i => acc + daysInMonth y (i + 1)) 0

/-- Number of days before January 1 of year `y`, as in Python's
`datetime._days_before_year`. -/
def daysBeforeYear (y : Nat) : Nat :=
  let n := y - 1
  365 * n + n / 4 - n / 100 + n / 400

/-- `datetime.date(y, m, d).toordinal()`: days since December 31 of year 0 in
the proleptic Gregorian calendar. -/
def toOrdinal (y m d : Nat) : Nat :=
  daysBeforeYear y + daysBeforeMonth y m + d

/-- `datetime.date.fromordinal(o).weekday()`: 0 = Monday … 6 = Sunday (the
numbering `dateutil.rrule` uses: `MO = 0`, …, `TH = 3`, …). -/
def weekday (o : Nat) : Nat :=
  (o + 6) % 7

/-- Ordinal of the first day with weekday `wd` on or after ordinal `o`. -/
def firstOnOrAfter (o wd : Nat) : Nat :=
  o + (wd + 7 - weekday o) % 7

/-- Ordinal of the last day with weekday `wd` on or before ordinal `o`. -/
def lastOnOrBefore (o wd : Nat) : Nat :=
  o - (weekday o + 7 - wd) % 7

/-- The day selector of a yearly `dateutil.rrule`: either the nth weekday of
the month (`byweekday = WD(n)`, with negative `n` counting from the end of the
month) or a fixed day of the month (`bymonthday = d`). -/
inductive ByDay where
  | weekdayN (wd : Nat) (n : Int)
  | monthday (d : Nat)
  deriving DecidableEq, Repr

/-- A yearly recurrence rule as built by the `_irule` wrappers in the source:
`freq = YEARLY`, a `bymonth`, and a day selector. -/
structure RRuleSpec where
  bymonth : Nat
  byday : ByDay
  deriving DecidableEq, Repr

/-- The single occurrence of a yearly rule in calendar year `y`: the nth
(or nth-from-last) weekday of the rule's month, or its fixed month day. -/
def occInYear (r : RRuleSpec) (y : Nat) : Nat :=
  match r.byday with
  | .monthday d => toOrdinal y r.bymonth d
  | .weekdayN wd n =>
    if 0 < n then
      firstOnOrAfter (toOrdinal y r.bymonth 1) wd + 7 * (n.toNat - 1)
    else
      lastOnOrBefore (toOrdinal y r.bymonth (daysInMonth y r.bymonth)) wd - 7 * ((-n).toNat - 1)

/-- First calendar year whose occurrence of rule `r` falls on or after the
iterator's `dtstart` (given as its year `dsYear` and its ordinal `dsOrd`). -/
def genStartYear (r : RRuleSpec) (dsYear dsOrd : Nat) : Nat :=
  if dsOrd ≤ occInYear r dsYear then dsYear else dsYear + 1

/-- The `i`-th element (0-based) yielded by the rrule iterator with the given
`dtstart`: the rule's occurrence in the `i`-th year at or after `dtstart`. -/
def genNth (r : RRuleSpec) (dsYear dsOrd : Nat) (i : Nat) : Nat :=
  occInYear r (genStartYear r dsYear dsOrd + i)

/-- `_thanksgiving`: `freq=YEARLY, bymonth=11, byweekday=rrule.TH(4)`
(the docstring claims "last thursday of every november", but the code
selects the fourth Thursday). -/
def thanksgivingRule : RRuleSpec := ⟨11, .weekdayN 3 4⟩

/-- `_labor_day`: `freq=YEARLY, bymonth=9, byweekday=rrule.MO(1)`. -/
def laborDayRule : RRuleSpec := ⟨9, .weekdayN 0 1⟩

/-- `_mlk_day`: `freq=YEARLY, bymonth=1, byweekday=rrule.MO(3)`. -/
def mlkDayRule : RRuleSpec := ⟨1, .weekdayN 0 3⟩

/-- `_memorial_day`: `freq=YEARLY, bymonth=3, byweekday=rrule.MO(-1)`. -/
def memorialDayRule : RRuleSpec := ⟨3, .weekdayN 0 (-1)⟩

/-- `_independence_day`: `freq=YEARLY, bymonth=7, bymonthday=4`. -/
def independenceDayRule : RRuleSpec := ⟨7, .monthday 4⟩

/-- `_fall_start`: `freq=YEARLY, bymonth=8, byweekday=rrule.MO(-2)`. -/
def fallStartRule : RRuleSpec := ⟨8, .weekdayN 0 (-2)⟩

/-- `_fall_break_start`: `freq=YEARLY, bymonth=10, byweekday=rrule.MO(-2)`. -/
def fallBreakStartRule : RRuleSpec := ⟨10, .weekdayN 0 (-2)⟩

/-- `_spring_withdraw_deadline`: `freq=YEARLY, bymonth=3, byweekday=rrule.MO(3)`. -/
def springWithdrawRule : RRuleSpec := ⟨3, .weekdayN 0 3⟩

/-- The Python exceptions the lookup facade can produce. -/
inductive PyError where
  /-- `ValueError(msg)` -/
  | valueError (msg : String)
  /-- `KeyError(key)` from a dict lookup -/
  | keyError (key : String)
  /-- `NameError`: the given name is not defined -/
  | nameError (nm : String)
  /-- `TypeError` (or `AssertionError`) from calling an attribute that is not
  an rrule factory method with rrule keyword arguments -/
  | typeError
  deriving DecidableEq, Repr

/-- Python dict lookup `m[field]` on a year's event mapping (association list
in insertion order; all keys inserted by `__init__` are distinct): the stored
value, or `KeyError` if the key is absent. -/
def findKey (key : String) : List (String × Nat) → Except PyError Nat
  | [] => .error (.keyError key)
  | (k, v) :: rest => if k = key then .ok v else findKey key rest

/-- `round(term, -2)` on a nonnegative Python int: round to the nearest
multiple of 100, ties to the even multiple (banker's rounding). -/
def pyRound100 (n : Nat) : Nat :=
  if n % 100 < 50 then (n / 100) * 100
  else if 50 < n % 100 then (n / 100 + 1) * 100
  else if (n / 100) % 2 = 0 then (n / 100) * 100 else (n / 100 + 1) * 100

/-- The `__init__` check on `_irule`'s bounds, with `until`/`count` given as
optional values (`None` arguments are filtered out of `kwargs` first, so
presence means `isSome`).  Mirrors the source's nesting exactly:

```
if not ("until" in kwargs or "count" in kwargs):
    if "until" in kwargs and "count" in kwargs:
        raise ValueError("Specify either count or until, not both")
    else:
        raise ValueError("Must specify either count or until.")
```

When the check passes, `_irule` returns the rrule iterator. -/
def iruleBoundsCheck (until_ count : Option Nat) : Except PyError Unit :=
  if !(until_.isSome || count.isSome) then
    if until_.isSome && count.isSome then
      .error (.valueError "Specify either count or until, not both")
    else
      .error (.valueError "Must specify either count or until.")
  else
    .ok ()

/-- The body of the `for yr in self.years` loop in `BSUCalendar.__init__`:
the event mapping stored as `self.dates[yr]`, in insertion order.  All eight
rrule iterators are created with `dtstart = date(start_year, 8, 1)` and
`count = n_yrs`, and the iteration for `yr` consumes each iterator's
`(yr - start_year)`-th element.  `term_length = 116` days,
`sum_term_length = 68` days, `xmas_break = 24` days; 8 weeks = 56 days and
9 weeks = 63 days. -/
def calendarYrDates (startYear yr : Nat) : List (String × Nat) :=
  let dsOrd := toOrdinal startYear 8 1
  let i := yr - startYear
  let f_start := genNth fallStartRule startYear dsOrd i
  let f_end := f_start + 116
  let f_break_start := genNth fallBreakStartRule startYear dsOrd i
  let f_break_end := f_break_start + 1
  let f_withdraw_end := f_break_end + 1
  let f_thank_break_start := genNth thanksgivingRule startYear dsOrd i - 1
  let f_thank_break_end := f_thank_break_start + 2
  let sp_start := f_end + 24
  let sp_end := sp_start + 116
  let sp_break_start := sp_start + (if yr = 2013 then 63 else 56)
  let sm_start := sp_end + 10
  let sm_end := sp_start + 68
  [("Fall Term Start", f_start),
   ("Fall Classes Start", f_start),
   ("Fall Late Registration Start", f_start),
   ("Fall Late Registration End", f_start + 4),
   ("Fall Break Start", f_break_start),
   ("Fall Break End", f_break_end),
   ("Fall Withdraw Deadline", f_withdraw_end),
   ("Thanksgiving Break Start", f_thank_break_start),
   ("Thanksgiving Break End", f_thank_break_end),
   ("Labor Day", genNth laborDayRule startYear dsOrd i),
   ("Fall Classes End", f_end - 4),
   ("Fall Finals Start", f_end - 3),
   ("Fall Finals End", f_end),
   ("Fall Term End", f_end),
   ("Fall Final Grades Due", f_end + 3),
   ("Spring Term Start", sp_start),
   ("Spring Classes Start", sp_start),
   ("Spring Break Start", sp_break_start),
   ("Spring Break End", sp_break_start + 4),
   ("Spring Withdraw Deadline", genNth springWithdrawRule startYear dsOrd i),
   ("Spring Classes End", sp_end - 4),
   ("Spring Finals Start", sp_end - 3),
   ("Spring Finals End", sp_end),
   ("Spring Term End", sp_end),
   ("Spring Final Grades Due", sp_end + 3),
   ("Summer Term Start", sm_start),
   ("Independenc Day", genNth independenceDayRule startYear dsOrd i),
   ("Summer Term End", sm_end),
   ("Summer Final Grades Due", sm_end + 3)]

/-- A constructed `BSUCalendar`: `self.years = range(start_year, end_year)`
(`min_date = date(start_year, 8, 1)`, `max_date = date(end_year, 8, 1)`). -/
structure BSUCalendar where
  start_year : Nat
  end_year : Nat
  deriving DecidableEq, Repr

/-- `self.dates[yr]`: the per-year event mapping for `yr`, present exactly for
the academic years in `range(start_year, end_year)` (`KeyError`, modelled as
`none`, otherwise). -/
def BSUCalendar.dates (c : BSUCalendar) (yr : Nat) : Option (List (String × Nat)) :=
  if c.start_year ≤ yr ∧ yr < c.end_year then some (calendarYrDates c.start_year yr) else none

/-- `date_in_term(term, field)`: `yr = int(round(term, -2) / 100)` (the float
division is exact because `round(term, -2)` is a multiple of 100), then
`self.dates[yr][field]`.  A `str` term is first converted with `int`; we model
integer term codes directly. -/
def date_in_term (c : BSUCalendar) (term : Nat) (field : String) : Except PyError Nat :=
  match c.dates (pyRound100 term / 100) with
  | none => .error (.keyError (toString (pyRound100 term / 100)))
  | some m => findKey field m

/-- `dates_by_tag(tag)`: the first statement of the body,
`yr = int(round(term, -2) / 100)`, reads the name `term`, which is neither a
parameter nor defined anywhere in the module, so every call raises
`NameError: name 'term' is not defined` before the tag is even inspected.
All later branches — including the invalid-tag branch, which only
*constructs* `ValueError(f"{tag} not valid. ...")` without raising it — are
unreachable. -/
def dates_by_tag (_c : BSUCalendar) (_tag : String) : Except PyError (List (String × Nat)) :=
  .error (.nameError "term")

/-- `ch.lower()` for a single character (ASCII, which covers every name the
source uses). -/
def pyLowerChar (ch : Char) : Char :=
  if 'A' ≤ ch ∧ ch ≤ 'Z' then Char.ofNat (ch.toNat + 32) else ch

/-- `"_" + holiday.lower().replace(" ", "_")`: the attribute name
`get_holiday` dispatches on (`lower` then `replace` applied character by
character, which is exact for the single-character pattern `" "`). -/
def attrNameOf (holiday : String) : String :=
  "_" ++ String.mk (holiday.data.map (fun ch => if ch = ' ' then '_' else pyLowerChar ch))

/-- The rrule factory methods of `BSUCalendar`, by attribute name: the
methods `get_holiday`'s `getattr` can resolve to a recurrence rule. -/
def ruleOfAttr (a : String) : Option RRuleSpec :=
  if a = "_thanksgiving" then some thanksgivingRule
  else if a = "_labor_day" then some laborDayRule
  else if a = "_mlk_day" then some mlkDayRule
  else if a = "_memorial_day" then some memorialDayRule
  else if a = "_independence_day" then some independenceDayRule
  else if a = "_fall_start" then some fallStartRule
  else if a = "_fall_break_start" then some fallBreakStartRule
  else if a = "_spring_withdraw_deadline" then some springWithdrawRule
  else none

/-- Underscore-prefixed attributes of a `BSUCalendar` instance that exist but
are not rrule factory methods: `hasattr` succeeds on them, and calling them
with `(dtstart=..., count=1)` raises a `TypeError` (or, for `_irule`, an
`AssertionError` on the missing `freq`), modelled as `PyError.typeError`.
Double-underscore attributes inherited from `object` are outside the model;
no claim exercises them. -/
def otherAttrs : List String := ["_set_logger", "_add_days", "_irule", "_logger"]

/-- `get_holiday(holiday, ac_year)`: resolve `"_" + holiday.lower().replace(" ", "_")`
with `getattr`; if it is an rrule factory, shift `ac_year` by one for
`"MLK Day"`, `"Memorial Day"`, `"Independence Day"`, and return
`list(gen_holiday(dtstart=date(ac_year, 1, 1), count=1))[0]`; if no such
attribute exists, raise `ValueError(f"Holiday {holiday} not recognized")`. -/
def get_holiday (holiday : String) (ac_year : Nat) : Except PyError Nat :=
  let a := attrNameOf holiday
  match ruleOfAttr a with
  | some r =>
    let y := if holiday = "MLK Day" ∨ holiday = "Memorial Day" ∨ holiday = "Independence Day"
             then ac_year + 1 else ac_year
    .ok (genNth r y (toOrdinal y 1 1) 0)
  | none =>
    if a ∈ otherAttrs then .error .typeError
    else .error (.valueError ("Holiday " ++ holiday ++ " not recognized"))

/-! ## Computation lemmas

Closed forms of the rule occurrences, and the behaviour of the rrule
iterators for the two `dtstart` values the source uses (August 1 of the
calendar's first year in `__init__`, January 1 of the requested year in
`get_holiday`). -/

/-- The date model agrees with Python: `date(2020, 1, 1).toordinal() == 737425`. -/
theorem toOrdinal_20200101 : toOrdinal 2020 1 1 = 737425 := by decide

theorem occ_thanksgiving (y : Nat) :
    occInYear thanksgivingRule y
      = toOrdinal y 11 1 + (3 + 7 - (toOrdinal y 11 1 + 6) % 7) % 7 + 21 := rfl

theorem occ_laborDay (y : Nat) :
    occInYear laborDayRule y
      = toOrdinal y 9 1 + (0 + 7 - (toOrdinal y 9 1 + 6) % 7) % 7 := rfl

theorem occ_mlkDay (y : Nat) :
    occInYear mlkDayRule y
      = toOrdinal y 1 1 + (0 + 7 - (toOrdinal y 1 1 + 6) % 7) % 7 + 14 := rfl

theorem occ_memorialDay (y : Nat) :
    occInYear memorialDayRule y
      = toOrdinal y 3 31 - ((toOrdinal y 3 31 + 6) % 7 + 7 - 0) % 7 := rfl

theorem occ_independenceDay (y : Nat) :
    occInYear independenceDayRule y = toOrdinal y 7 4 := rfl

theorem occ_fallStart (y : Nat) :
    occInYear fallStartRule y
      = toOrdinal y 8 31 - ((toOrdinal y 8 31 + 6) % 7 + 7 - 0) % 7 - 7 := rfl

theorem occ_springWithdraw (y : Nat) :
    occInYear springWithdrawRule y
      = toOrdinal y 3 1 + (0 + 7 - (toOrdinal y 3 1 + 6) % 7) % 7 + 14 := rfl

/-- Within one month, ordinals differ by the day offset. -/
theorem toOrdinal_day (y m d : Nat) (hd : 1 ≤ d) :
    toOrdinal y m d = toOrdinal y m 1 + (d - 1) := by
  unfold toOrdinal; omega

/-- Cumulative day counts before the months the rules mention. -/
theorem daysBeforeMonth_values (y : Nat) :
    daysBeforeMonth y 1 = 0 ∧
    daysBeforeMonth y 3 = (if isLeap y then 60 else 59) ∧
    daysBeforeMonth y 7 = (if isLeap y then 182 else 181) ∧
    daysBeforeMonth y 8 = (if isLeap y then 213 else 212) ∧
    daysBeforeMonth y 9 = (if isLeap y then 244 else 243) ∧
    daysBeforeMonth y 10 = (if isLeap y then 274 else 273) ∧
    daysBeforeMonth y 11 = (if isLeap y then 305 else 304) := by
  cases h : isLeap y <;>
    simp [daysBeforeMonth, daysInMonth, List.range_succ, h]

/-- The fall-start iterator started at August 1 yields the August occurrence
of its own first year (the second-to-last Monday of August is never before
August 1), so its `i`-th element belongs to calendar year `s + i`. -/
theorem genNth_aug1_fallStart (s i : Nat) :
    genNth fallStartRule s (toOrdinal s 8 1) i = occInYear fallStartRule (s + i) := by
  have h : toOrdinal s 8 1 ≤ occInYear fallStartRule s := by
    rw [occ_fallStart, toOrdinal_day s 8 31 (by omega)]
    generalize toOrdinal s 8 1 = o
    omega
  unfold genNth genStartYear
  rw [if_pos h]

/-- The independence-day iterator started at August 1 skips July 4 of its
first year, so its `i`-th element is July 4 of calendar year `s + 1 + i`. -/
theorem genNth_aug1_independence (s i : Nat) :
    genNth independenceDayRule s (toOrdinal s 8 1) i
      = occInYear independenceDayRule (s + 1 + i) := by
  have hv := daysBeforeMonth_values s
  have h : ¬ (toOrdinal s 8 1 ≤ occInYear independenceDayRule s) := by
    rw [occ_independenceDay]
    unfold toOrdinal
    cases hl : isLeap s <;> simp [hl] at hv <;> omega
  unfold genNth genStartYear
  rw [if_neg h]

/-- Iterators for rules anchored on or after January 1 started at January 1
of the same year yield that year's occurrence first.  Stated for the five
holiday rules reachable from `get_holiday`. -/
theorem genNth_jan1_mlkDay (y : Nat) :
    genNth mlkDayRule y (toOrdinal y 1 1) 0 = occInYear mlkDayRule y := by
  have h : toOrdinal y 1 1 ≤ occInYear mlkDayRule y := by
    rw [occ_mlkDay]; omega
  unfold genNth genStartYear
  rw [if_pos h, Nat.add_zero]

theorem genNth_jan1_memorialDay (y : Nat) :
    genNth memorialDayRule y (toOrdinal y 1 1) 0 = occInYear memorialDayRule y := by
  have h1 : daysBeforeMonth y 1 = 0 := rfl
  have h : toOrdinal y 1 1 ≤ occInYear memorialDayRule y := by
    rw [occ_memorialDay]
    unfold toOrdinal
    omega
  unfold genNth genStartYear
  rw [if_pos h, Nat.add_zero]

theorem genNth_jan1_independenceDay (y : Nat) :
    genNth independenceDayRule y (toOrdinal y 1 1) 0 = occInYear independenceDayRule y := by
  have h1 : daysBeforeMonth y 1 = 0 := rfl
  have h : toOrdinal y 1 1 ≤ occInYear independenceDayRule y := by
    rw [occ_independenceDay]
    unfold toOrdinal
    omega
  unfold genNth genStartYear
  rw [if_pos h, Nat.add_zero]

theorem genNth_jan1_thanksgiving (y : Nat) :
    genNth thanksgivingRule y (toOrdinal y 1 1) 0 = occInYear thanksgivingRule y := by
  have h1 : daysBeforeMonth y 1 = 0 := rfl
  have h : toOrdinal y 1 1 ≤ occInYear thanksgivingRule y := by
    rw [occ_thanksgiving]
    unfold toOrdinal
    omega
  unfold genNth genStartYear
  rw [if_pos h, Nat.add_zero]

theorem genNth_jan1_laborDay (y : Nat) :
    genNth laborDayRule y (toOrdinal y 1 1) 0 = occInYear laborDayRule y := by
  have h1 : daysBeforeMonth y 1 = 0 := rfl
  have h : toOrdinal y 1 1 ≤ occInYear laborDayRule y := by
    rw [occ_laborDay]
    unfold toOrdinal
    omega
  unfold genNth genStartYear
  rw [if_pos h, Nat.add_zero]

/-- `int(round(y*100 + s, -2) / 100) = y` for the semester codes (all below
the rounding midpoint 50). -/
theorem pyRound100_small (y s : Nat) (hs : s < 50) : pyRound100 (y * 100 + s) / 100 = y := by
  unfold pyRound100
  split
  · omega
  · omega

/-- A term code whose decoded year is in the configured range looks its field
up in that year's mapping. -/
theorem date_in_term_in_range (c : BSUCalendar) (y s : Nat) (field : String)
    (hs : s < 50) (h1 : c.start_year ≤ y) (h2 : y < c.end_year) :
    date_in_term c (y * 100 + s) field = findKey field (calendarYrDates c.start_year y) := by
  unfold date_in_term BSUCalendar.dates
  rw [pyRound100_small y s hs, if_pos ⟨h1, h2⟩]

/-- The semester codes decoded by the facade are all below the rounding
midpoint. -/
theorem semester_codes_small : ∀ s ∈ ([10, 20, 30] : List Nat), s < 50 := by decide

/-! ## Claims -/

/-- Claim C1, counterexample: in 2012 — a year whose November has five
Thursdays — the Thanksgiving rule yields November 22, 2012, yet
November 29, 2012 is a later Thursday inside the same November
(November 2012 has 30 days), so the rule's output is not the last Thursday
of that November. -/
theorem C1_counterexample_2012 :
    occInYear thanksgivingRule 2012 = toOrdinal 2012 11 22 ∧
    weekday (toOrdinal 2012 11 29) = 3 ∧
    toOrdinal 2012 11 22 < toOrdinal 2012 11 29 ∧
    toOrdinal 2012 11 29 ≤ toOrdinal 2012 11 30 := by decide

/-- Claim C1, amended: the Thanksgiving recurrence rule returns, for every
calendar year it is evaluated in, the *fourth* Thursday of November of that
year — a Thursday falling between November 22 and November 28 inclusive.
(It coincides with the last Thursday only in years whose November has exactly
four Thursdays.) -/
theorem C1_thanksgiving_fourth_thursday (y : Nat) :
    weekday (occInYear thanksgivingRule y) = 3 ∧
    toOrdinal y 11 22 ≤ occInYear thanksgivingRule y ∧
    occInYear thanksgivingRule y ≤ toOrdinal y 11 28 := by
  rw [occ_thanksgiving, toOrdinal_day y 11 22 (by omega), toOrdinal_day y 11 28 (by omega)]
  unfold weekday
  generalize toOrdinal y 11 1 = o
  omega

/-- Claim C2, counterexample: with the configured range 2012–2022 (which
contains academic year 2020), `date_in_term(202010, "Classes Start")` does
not succeed: the per-year mapping only stores semester-prefixed keys
(`"Fall Classes Start"`), so the lookup raises `KeyError("Classes Start")`. -/
theorem C2_counterexample_unprefixed_key :
    date_in_term ⟨2012, 2022⟩ 202010 "Classes Start"
      = .error (.keyError "Classes Start") := rfl

/-- Claim C2, amended: `date_in_term` decomposes the term code by banker's
rounding and division into a year and looks the field up in that year's
mapping; for a generator whose range contains academic year 2020,
`date_in_term(202010, "Fall Classes Start")` (the keys are semester-prefixed)
succeeds and returns the fall-start rule output for 2020, the second-to-last
Monday of August 2020 = August 24, 2020. -/
theorem C2_date_in_term_fall_start (c : BSUCalendar) (y s : Nat) (field : String)
    (hs : s < 50) (hy1 : c.start_year ≤ y) (hy2 : y < c.end_year)
    (h1 : c.start_year ≤ 2020) (h2 : 2020 < c.end_year) :
    date_in_term c (y * 100 + s) field = findKey field (calendarYrDates c.start_year y) ∧
    date_in_term c 202010 "Fall Classes Start" = .ok (occInYear fallStartRule 2020) ∧
    occInYear fallStartRule 2020 = toOrdinal 2020 8 24 ∧
    weekday (toOrdinal 2020 8 24) = 0 := by
  refine ⟨date_in_term_in_range c y s field hs hy1 hy2, ?_, by decide, by decide⟩
  have h := date_in_term_in_range c 2020 10 "Fall Classes Start" (by omega) h1 h2
  rw [show (2020 * 100 + 10) = 202010 from rfl] at h
  rw [h]
  have hl : findKey "Fall Classes Start" (calendarYrDates c.start_year 2020)
      = .ok (genNth fallStartRule c.start_year (toOrdinal c.start_year 8 1)
               (2020 - c.start_year)) := rfl
  rw [hl, genNth_aug1_fallStart,
    show c.start_year + (2020 - c.start_year) = 2020 from by omega]

/-- Claim C2, witness: the amended statement holds for the concrete calendar
covering 2012–2022, instantiated at term 201510 / field `"Labor Day"`. -/
theorem C2_date_in_term_fall_start_witness :
    (10 < 50 ∧ 2012 ≤ 2015 ∧ 2015 < 2022 ∧ 2012 ≤ 2020 ∧ 2020 < 2022) ∧
    (date_in_term ⟨2012, 2022⟩ (2015 * 100 + 10) "Labor Day"
        = findKey "Labor Day" (calendarYrDates 2012 2015) ∧
     date_in_term ⟨2012, 2022⟩ 202010 "Fall Classes Start"
        = .ok (occInYear fallStartRule 2020) ∧
     occInYear fallStartRule 2020 = toOrdinal 2020 8 24 ∧
     weekday (toOrdinal 2020 8 24) = 0) :=
  ⟨by decide, C2_date_in_term_fall_start ⟨2012, 2022⟩ 2015 10 "Labor Day"
    (by decide) (by decide) (by decide) (by decide) (by decide)⟩

/-- Claim C3, code-bug evaluation: `dates_by_tag` never raises the
invalid-tag error — its first statement reads the undefined name `term`, so
every call, with an unrecognized or a recognized tag alike, fails with
`NameError` (and the `ValueError` the invalid-tag branch builds is never
raised because the statement lacks `raise`).  `get_holiday` does raise the
unrecognized-holiday `ValueError` for a name matching no rule attribute. -/
theorem C3_dates_by_tag_name_error :
    dates_by_tag ⟨2012, 2022⟩ "NotATag" = .error (.nameError "term") ∧
    dates_by_tag ⟨2012, 2022⟩ "Registration" = .error (.nameError "term") ∧
    get_holiday "Arbor Day" 2020
      = .error (.valueError "Holiday Arbor Day not recognized") := ⟨rfl, rfl, rfl⟩

/-- Claim C4, confirmed: `get_holiday` computes MLK Day, Memorial Day and
Independence Day from starting calendar year `Y + 1` and Thanksgiving and
Labor Day from starting year `Y`; in particular `get_holiday("MLK Day", 2020)`
is January 18, 2021 and `get_holiday("Labor Day", 2020)` is September 7, 2020. -/
theorem C4_get_holiday_year_shift (Y : Nat) :
    get_holiday "MLK Day" Y = .ok (occInYear mlkDayRule (Y + 1)) ∧
    get_holiday "Memorial Day" Y = .ok (occInYear memorialDayRule (Y + 1)) ∧
    get_holiday "Independence Day" Y = .ok (occInYear independenceDayRule (Y + 1)) ∧
    get_holiday "Thanksgiving" Y = .ok (occInYear thanksgivingRule Y) ∧
    get_holiday "Labor Day" Y = .ok (occInYear laborDayRule Y) ∧
    get_holiday "MLK Day" 2020 = .ok (toOrdinal 2021 1 18) ∧
    get_holiday "Labor Day" 2020 = .ok (toOrdinal 2020 9 7) := by
  refine ⟨?_, ?_, ?_, ?_, ?_, rfl, rfl⟩
  · show Except.ok (genNth mlkDayRule (Y + 1) (toOrdinal (Y + 1) 1 1) 0)
        = Except.ok (occInYear mlkDayRule (Y + 1))
    rw [genNth_jan1_mlkDay]
  · show Except.ok (genNth memorialDayRule (Y + 1) (toOrdinal (Y + 1) 1 1) 0)
        = Except.ok (occInYear memorialDayRule (Y + 1))
    rw [genNth_jan1_memorialDay]
  · show Except.ok (genNth independenceDayRule (Y + 1) (toOrdinal (Y + 1) 1 1) 0)
        = Except.ok (occInYear independenceDayRule (Y + 1))
    rw [genNth_jan1_independenceDay]
  · show Except.ok (genNth thanksgivingRule Y (toOrdinal Y 1 1) 0)
        = Except.ok (occInYear thanksgivingRule Y)
    rw [genNth_jan1_thanksgiving]
  · show Except.ok (genNth laborDayRule Y (toOrdinal Y 1 1) 0)
        = Except.ok (occInYear laborDayRule Y)
    rw [genNth_jan1_laborDay]

/-- Claim C5, confirmed: for every academic year in the configured range the
stored term boundaries satisfy `fall_end - fall_start = 116` days and
`spring_end - spring_start = 116` days. -/
theorem C5_term_lengths (c : BSUCalendar) (yr : Nat)
    (h1 : c.start_year ≤ yr) (h2 : yr < c.end_year) :
    ∃ m fs fe ss se,
      c.dates yr = some m ∧
      findKey "Fall Term Start" m = .ok fs ∧
      findKey "Fall Term End" m = .ok fe ∧
      fs ≤ fe ∧ fe - fs = 116 ∧
      findKey "Spring Term Start" m = .ok ss ∧
      findKey "Spring Term End" m = .ok se ∧
      ss ≤ se ∧ se - ss = 116 := by
  have hd : c.dates yr = some (calendarYrDates c.start_year yr) := by
    unfold BSUCalendar.dates
    rw [if_pos ⟨h1, h2⟩]
  exact ⟨calendarYrDates c.start_year yr,
    genNth fallStartRule c.start_year (toOrdinal c.start_year 8 1) (yr - c.start_year),
    genNth fallStartRule c.start_year (toOrdinal c.start_year 8 1) (yr - c.start_year) + 116,
    genNth fallStartRule c.start_year (toOrdinal c.start_year 8 1) (yr - c.start_year) + 116 + 24,
    genNth fallStartRule c.start_year (toOrdinal c.start_year 8 1) (yr - c.start_year) + 116 + 24
      + 116,
    hd, rfl, rfl, by omega, by omega, rfl, rfl, by omega, by omega⟩

/-- Claim C5, witness: the term-length invariant at the calendar covering
2012–2022 and academic year 2015. -/
theorem C5_term_lengths_witness :
    (2012 ≤ 2015 ∧ 2015 < 2022) ∧
    (∃ m fs fe ss se,
      BSUCalendar.dates ⟨2012, 2022⟩ 2015 = some m ∧
      findKey "Fall Term Start" m = .ok fs ∧
      findKey "Fall Term End" m = .ok fe ∧
      fs ≤ fe ∧ fe - fs = 116 ∧
      findKey "Spring Term Start" m = .ok ss ∧
      findKey "Spring Term End" m = .ok se ∧
      ss ≤ se ∧ se - ss = 116) :=
  ⟨by decide, C5_term_lengths ⟨2012, 2022⟩ 2015 (by decide) (by decide)⟩

/-- Claim C6, confirmed: the stored `"Spring Break Start"` is 9 weeks
(63 days) after `"Spring Term Start"` for academic year 2013 and 8 weeks
(56 days) after it for every other year in the configured range. -/
theorem C6_spring_break_offset (c : BSUCalendar) (yr : Nat)
    (h1 : c.start_year ≤ yr) (h2 : yr < c.end_year) :
    ∃ m ss sb,
      c.dates yr = some m ∧
      findKey "Spring Term Start" m = .ok ss ∧
      findKey "Spring Break Start" m = .ok sb ∧
      ss ≤ sb ∧ sb - ss = (if yr = 2013 then 63 else 56) := by
  have hd : c.dates yr = some (calendarYrDates c.start_year yr) := by
    unfold BSUCalendar.dates
    rw [if_pos ⟨h1, h2⟩]
  refine ⟨calendarYrDates c.start_year yr,
    genNth fallStartRule c.start_year (toOrdinal c.start_year 8 1) (yr - c.start_year) + 116 + 24,
    genNth fallStartRule c.start_year (toOrdinal c.start_year 8 1) (yr - c.start_year) + 116 + 24
      + (if yr = 2013 then 63 else 56),
    hd, rfl, rfl, ?_, ?_⟩ <;>
  · generalize (if yr = 2013 then 63 else 56) = k
    omega

/-- Claim C6, witness: at the calendar covering 2012–2022 and the irregular
academic year 2013 itself. -/
theorem C6_spring_break_offset_witness :
    (2012 ≤ 2013 ∧ 2013 < 2022) ∧
    (∃ m ss sb,
      BSUCalendar.dates ⟨2012, 2022⟩ 2013 = some m ∧
      findKey "Spring Term Start" m = .ok ss ∧
      findKey "Spring Break Start" m = .ok sb ∧
      ss ≤ sb ∧ sb - ss = (if 2013 = 2013 then 63 else 56)) :=
  ⟨by decide, C6_spring_break_offset ⟨2012, 2022⟩ 2013 (by decide) (by decide)⟩

/-- Claim C7, code-bug evaluation: `_irule` raises the invalid-configuration
`ValueError` when neither `count` nor `until` is given, but when *both* are
given the guard `if not ("until" in kwargs or "count" in kwargs)` is false,
the nested both-given check is unreachable dead code, and the request is
passed through to `rrule` without any error. -/
theorem C7_irule_bounds_check :
    iruleBoundsCheck none none
      = .error (.valueError "Must specify either count or until.") ∧
    iruleBoundsCheck (some (toOrdinal 2030 1 1)) (some 1) = .ok () := ⟨rfl, rfl⟩

/-- Claim C8, confirmed: `date_in_term` ignores the semester component of the
term code — for any two semester codes in {10, 20, 30} and any field, the
results agree, because `int(round(term, -2) / 100)` recovers the same year. -/
theorem C8_semester_code_ignored (c : BSUCalendar) (y s1 s2 : Nat) (field : String)
    (hs1 : s1 ∈ ([10, 20, 30] : List Nat)) (hs2 : s2 ∈ ([10, 20, 30] : List Nat))
    (h1 : c.start_year ≤ y) (h2 : y < c.end_year) :
    date_in_term c (y * 100 + s1) field = date_in_term c (y * 100 + s2) field := by
  unfold date_in_term
  rw [pyRound100_small y s1 (semester_codes_small s1 hs1),
    pyRound100_small y s2 (semester_codes_small s2 hs2)]

/-- Claim C8, witness: 201510 and 201530 give the same Labor Day lookup on
the calendar covering 2012–2022. -/
theorem C8_semester_code_ignored_witness :
    (10 ∈ ([10, 20, 30] : List Nat) ∧ 30 ∈ ([10, 20, 30] : List Nat) ∧
      2012 ≤ 2015 ∧ 2015 < 2022) ∧
    date_in_term ⟨2012, 2022⟩ (2015 * 100 + 10) "Labor Day"
      = date_in_term ⟨2012, 2022⟩ (2015 * 100 + 30) "Labor Day" :=
  ⟨by decide, C8_semester_code_ignored ⟨2012, 2022⟩ 2015 10 30 "Labor Day"
    (by decide) (by decide) (by decide) (by decide)⟩

/-- Claim C9, confirmed: every year's mapping stores the Independence Day
date only under the misspelled key `"Independenc Day"`; the key
`"Independence Day"` is absent, so `date_in_term` fails with `KeyError` on
the correct spelling and succeeds on the misspelled one. -/
theorem C9_independenc_day_misspelled (c : BSUCalendar) (yr sem : Nat)
    (hsem : sem ∈ ([10, 20, 30] : List Nat))
    (h1 : c.start_year ≤ yr) (h2 : yr < c.end_year) :
    "Independence Day" ∉ (calendarYrDates c.start_year yr).map Prod.fst ∧
    date_in_term c (yr * 100 + sem) "Independence Day"
      = .error (.keyError "Independence Day") ∧
    date_in_term c (yr * 100 + sem) "Independenc Day"
      = .ok (genNth independenceDayRule c.start_year (toOrdinal c.start_year 8 1)
              (yr - c.start_year)) := by
  have hkeys : (calendarYrDates c.start_year yr).map Prod.fst =
      ["Fall Term Start", "Fall Classes Start", "Fall Late Registration Start",
       "Fall Late Registration End", "Fall Break Start", "Fall Break End",
       "Fall Withdraw Deadline", "Thanksgiving Break Start", "Thanksgiving Break End",
       "Labor Day", "Fall Classes End", "Fall Finals Start", "Fall Finals End",
       "Fall Term End", "Fall Final Grades Due", "Spring Term Start",
       "Spring Classes Start", "Spring Break Start", "Spring Break End",
       "Spring Withdraw Deadline", "Spring Classes End", "Spring Finals Start",
       "Spring Finals End", "Spring Term End", "Spring Final Grades Due",
       "Summer Term Start", "Independenc Day", "Summer Term End",
       "Summer Final Grades Due"] := rfl
  refine ⟨?_, ?_, ?_⟩
  · rw [hkeys]
    decide
  · rw [date_in_term_in_range c yr sem "Independence Day"
      (semester_codes_small sem hsem) h1 h2]
    rfl
  · rw [date_in_term_in_range c yr sem "Independenc Day"
      (semester_codes_small sem hsem) h1 h2]
    rfl

/-- Claim C9, witness: at the calendar covering 2012–2022, term 201620. -/
theorem C9_independenc_day_misspelled_witness :
    (20 ∈ ([10, 20, 30] : List Nat) ∧ 2012 ≤ 2016 ∧ 2016 < 2022) ∧
    ("Independence Day" ∉ (calendarYrDates 2012 2016).map Prod.fst ∧
     date_in_term ⟨2012, 2022⟩ (2016 * 100 + 20) "Independence Day"
       = .error (.keyError "Independence Day") ∧
     date_in_term ⟨2012, 2022⟩ (2016 * 100 + 20) "Independenc Day"
       = .ok (genNth independenceDayRule 2012 (toOrdinal 2012 8 1) (2016 - 2012))) :=
  ⟨by decide, C9_independenc_day_misspelled ⟨2012, 2022⟩ 2016 20
    (by decide) (by decide) (by decide)⟩

/-- Claim C10, confirmed: for every year in range the stored
`"Summer Term End"` (spring start + 68 days) is strictly earlier than the
stored `"Summer Term Start"` (spring start + 126 days) — exactly 58 days
earlier. -/
theorem C10_summer_term_inverted (c : BSUCalendar) (yr : Nat)
    (h1 : c.start_year ≤ yr) (h2 : yr < c.end_year) :
    ∃ m a b,
      c.dates yr = some m ∧
      findKey "Summer Term Start" m = .ok a ∧
      findKey "Summer Term End" m = .ok b ∧
      b < a ∧ a - b = 58 := by
  have hd : c.dates yr = some (calendarYrDates c.start_year yr) := by
    unfold BSUCalendar.dates
    rw [if_pos ⟨h1, h2⟩]
  exact ⟨calendarYrDates c.start_year yr,
    genNth fallStartRule c.start_year (toOrdinal c.start_year 8 1) (yr - c.start_year) + 116 + 24
      + 116 + 10,
    genNth fallStartRule c.start_year (toOrdinal c.start_year 8 1) (yr - c.start_year) + 116 + 24
      + 68,
    hd, rfl, rfl, by omega, by omega⟩

/-- Claim C10, witness: at the calendar covering 2012–2022 and year 2014. -/
theorem C10_summer_term_inverted_witness :
    (2012 ≤ 2014 ∧ 2014 < 2022) ∧
    (∃ m a b,
      BSUCalendar.dates ⟨2012, 2022⟩ 2014 = some m ∧
      findKey "Summer Term Start" m = .ok a ∧
      findKey "Summer Term End" m = .ok b ∧
      b < a ∧ a - b = 58) :=
  ⟨by decide, C10_summer_term_inverted ⟨2012, 2022⟩ 2014 (by decide) (by decide)⟩

end BSU
